import Mathlib

/-!
Shallow embedding of `src/program-model/src/buttercup/program_model/program_model.py`.

The program is an orchestration layer around effectful external collaborators
(filesystem, subprocesses, queues, a graph database).  Each external step is
modelled by its outcome, recorded in an environment record: `Except.ok v` when
the Python call returns `v` normally, `Except.error e` when it raises an
exception (`e` is an opaque description of the Python exception).  Each
orchestration function is translated into a Lean function from its
configuration and environment to the ordered trace of the external operations
it attempted, paired with its own outcome (`Except.ok b` for a normal boolean
return, `Except.error e` for an exception escaping the function).
-/

/-- Opaque description of a Python exception (its type and message). -/
abbrev PyExc := String

/-- The inbound queue message `IndexRequest` (msg_pb2), restricted to the
fields the orchestrator reads. -/
structure IndexRequest where
  task_id : String
  package_name : String
  build_type : String
  sanitizer : String
  task_dir : String
  deriving DecidableEq, Repr

/-- The outbound queue message `IndexOutput` (msg_pb2). -/
structure IndexOutput where
  build_type : String
  package_name : String
  sanitizer : String
  task_dir : String
  task_id : String
  deriving DecidableEq, Repr

/-- The fields of the `ProgramModel` dataclass that the task-processing
functions consult.  `none` models a Python `None`. -/
structure ProgramModelCfg where
  graphdb_enabled : Bool
  wdir : Option String
  script_dir : Option String
  kythe_dir : Option String
  python : Option String
  deriving DecidableEq, Repr

/-- External operations attempted by `process_task_kythe` (and by
`index_kythe`, which it calls), in source order. -/
inductive KEv
  | mkTempDir
  | chmodWorkspace
  | mkChallengeTask
  | getRwCopy
  | applyPatchDiff
  | indexTarget
  | chownOutput
  | mergeKytheOutput
  | cxxIndex
  | processStream
  | loadGraphml
  deriving DecidableEq, Repr

/-- Outcomes of the external operations used by `process_task_kythe`:
`tempfile.TemporaryDirectory`, `os.stat`/`os.chmod`, the `ChallengeTask`
constructor, `get_rw_copy`, `apply_patch_diff`, `indexer.index_target`
(returns an output directory or `None`), the `sudo chown` subprocess,
`ktool.merge_kythe_output`, `ktool.cxx_index`, the graphml write
(`gs.process_stream` with both file opens), and the gremlin load. -/
structure KytheEnv where
  mkTempDir : Except PyExc Unit
  chmodWorkspace : Except PyExc Unit
  mkChallengeTask : Except PyExc Unit
  getRwCopy : Except PyExc Unit
  applyPatchDiff : Except PyExc Bool
  indexTarget : Except PyExc (Option String)
  chownOutput : Except PyExc Unit
  mergeKytheOutput : Except PyExc Unit
  cxxIndex : Except PyExc Unit
  processStream : Except PyExc Unit
  loadGraphml : Except PyExc Unit
  deriving Repr

/-- External operations attempted by `process_task_codequery`, in source
order. -/
inductive CqEv
  | mkChallengeTask
  | getRwCopy
  | applyPatchDiff
  | mkCodeQuery
  | archive
  deriving DecidableEq, Repr

/-- Outcomes of the external operations used by `process_task_codequery`:
the `ChallengeTask` constructor, `get_rw_copy`, `apply_patch_diff`, the
`CodeQueryPersistent` constructor, and `node_local.dir_to_remote_archive`. -/
structure CqEnv where
  mkChallengeTask : Except PyExc Unit
  getRwCopy : Except PyExc Unit
  applyPatchDiff : Except PyExc Bool
  mkCodeQuery : Except PyExc Unit
  archive : Except PyExc Unit
  deriving Repr

/-- `ProgramModel.index_kythe`: raises `ValueError` when `kythe_dir` is
`None`; otherwise merges the kzip fragments (`merge_kythe_output`, any
exception propagates) and compiles them to a binary index (`cxx_index`,
whose exception is logged and re-raised).  Returns the trace of attempted
steps and the outcome (the binary file path is not observable to the
claims, so the ok value is `Unit`). -/
def index_kythe (cfg : ProgramModelCfg) (env : KytheEnv) :
    List KEv × Except PyExc Unit :=
  match cfg.kythe_dir with
  | none => ([], Except.error "ValueError: Kythe directory is not initialized")
  | some _ =>
    match env.mergeKytheOutput with
    | Except.error e => ([KEv.mergeKytheOutput], Except.error e)
    | Except.ok _ =>
      match env.cxxIndex with
      | Except.error e => ([KEv.mergeKytheOutput, KEv.cxxIndex], Except.error e)
      | Except.ok _ => ([KEv.mergeKytheOutput, KEv.cxxIndex], Except.ok ())

/-- `ProgramModel.process_task_kythe`.  The temporary-directory creation,
permission change, `ChallengeTask` construction, working-copy acquisition
and patch application are not inside any `try`, so their exceptions
propagate.  The first `try` block covers the configuration checks
(`script_dir`/`python`/`kythe_dir` absent raises `ValueError`, caught),
`indexer.index_target` and the `sudo chown` subprocess; a `None` output
directory is then reported as failure.  Separate `try` blocks cover the
`index_kythe` call, the graphml write, and the gremlin load; each caught
exception is logged and converted to `return False`. -/
def process_task_kythe (cfg : ProgramModelCfg) (env : KytheEnv) :
    List KEv × Except PyExc Bool :=
  match env.mkTempDir with
  | Except.error e => ([KEv.mkTempDir], Except.error e)
  | Except.ok _ =>
  match env.chmodWorkspace with
  | Except.error e => ([KEv.mkTempDir, KEv.chmodWorkspace], Except.error e)
  | Except.ok _ =>
  match env.mkChallengeTask with
  | Except.error e =>
      ([KEv.mkTempDir, KEv.chmodWorkspace, KEv.mkChallengeTask], Except.error e)
  | Except.ok _ =>
  match env.getRwCopy with
  | Except.error e =>
      ([KEv.mkTempDir, KEv.chmodWorkspace, KEv.mkChallengeTask, KEv.getRwCopy],
       Except.error e)
  | Except.ok _ =>
  match env.applyPatchDiff with
  | Except.error e =>
      ([KEv.mkTempDir, KEv.chmodWorkspace, KEv.mkChallengeTask, KEv.getRwCopy,
        KEv.applyPatchDiff], Except.error e)
  | Except.ok _ =>
  if cfg.script_dir = none ∨ cfg.python = none ∨ cfg.kythe_dir = none then
    ([KEv.mkTempDir, KEv.chmodWorkspace, KEv.mkChallengeTask, KEv.getRwCopy,
      KEv.applyPatchDiff], Except.ok false)
  else
  match env.indexTarget with
  | Except.error _ =>
      ([KEv.mkTempDir, KEv.chmodWorkspace, KEv.mkChallengeTask, KEv.getRwCopy,
        KEv.applyPatchDiff, KEv.indexTarget], Except.ok false)
  | Except.ok outputDir =>
  match env.chownOutput with
  | Except.error _ =>
      ([KEv.mkTempDir, KEv.chmodWorkspace, KEv.mkChallengeTask, KEv.getRwCopy,
        KEv.applyPatchDiff, KEv.indexTarget, KEv.chownOutput], Except.ok false)
  | Except.ok _ =>
  match outputDir with
  | none =>
      ([KEv.mkTempDir, KEv.chmodWorkspace, KEv.mkChallengeTask, KEv.getRwCopy,
        KEv.applyPatchDiff, KEv.indexTarget, KEv.chownOutput], Except.ok false)
  | some _ =>
  match index_kythe cfg env with
  | (t, Except.error _) =>
      ([KEv.mkTempDir, KEv.chmodWorkspace, KEv.mkChallengeTask, KEv.getRwCopy,
        KEv.applyPatchDiff, KEv.indexTarget, KEv.chownOutput] ++ t, Except.ok false)
  | (t, Except.ok _) =>
  match env.processStream with
  | Except.error _ =>
      ([KEv.mkTempDir, KEv.chmodWorkspace, KEv.mkChallengeTask, KEv.getRwCopy,
        KEv.applyPatchDiff, KEv.indexTarget, KEv.chownOutput] ++ t ++
       [KEv.processStream], Except.ok false)
  | Except.ok _ =>
  match env.loadGraphml with
  | Except.error _ =>
      ([KEv.mkTempDir, KEv.chmodWorkspace, KEv.mkChallengeTask, KEv.getRwCopy,
        KEv.applyPatchDiff, KEv.indexTarget, KEv.chownOutput] ++ t ++
       [KEv.processStream, KEv.loadGraphml], Except.ok false)
  | Except.ok _ =>
      ([KEv.mkTempDir, KEv.chmodWorkspace, KEv.mkChallengeTask, KEv.getRwCopy,
        KEv.applyPatchDiff, KEv.indexTarget, KEv.chownOutput] ++ t ++
       [KEv.processStream, KEv.loadGraphml], Except.ok true)

/-- `ProgramModel.process_task_codequery`.  The whole body is inside one
`try ... except Exception`, so every exception (including the `ValueError`
raised when `wdir` is `None`, checked after the patch application) is
caught, logged and converted to `return False`; `True` is returned only
after the archival completes. -/
def process_task_codequery (cfg : ProgramModelCfg) (env : CqEnv) :
    List CqEv × Except PyExc Bool :=
  match env.mkChallengeTask with
  | Except.error _ => ([CqEv.mkChallengeTask], Except.ok false)
  | Except.ok _ =>
  match env.getRwCopy with
  | Except.error _ => ([CqEv.mkChallengeTask, CqEv.getRwCopy], Except.ok false)
  | Except.ok _ =>
  match env.applyPatchDiff with
  | Except.error _ =>
      ([CqEv.mkChallengeTask, CqEv.getRwCopy, CqEv.applyPatchDiff], Except.ok false)
  | Except.ok _ =>
  if cfg.wdir = none then
    ([CqEv.mkChallengeTask, CqEv.getRwCopy, CqEv.applyPatchDiff], Except.ok false)
  else
  match env.mkCodeQuery with
  | Except.error _ =>
      ([CqEv.mkChallengeTask, CqEv.getRwCopy, CqEv.applyPatchDiff,
        CqEv.mkCodeQuery], Except.ok false)
  | Except.ok _ =>
  match env.archive with
  | Except.error _ =>
      ([CqEv.mkChallengeTask, CqEv.getRwCopy, CqEv.applyPatchDiff,
        CqEv.mkCodeQuery, CqEv.archive], Except.ok false)
  | Except.ok _ =>
      ([CqEv.mkChallengeTask, CqEv.getRwCopy, CqEv.applyPatchDiff,
        CqEv.mkCodeQuery, CqEv.archive], Except.ok true)

/-- Events of a whole `process_task` run, tagged by the strategy that
performed them. -/
inductive Ev
  | cq : CqEv → Ev
  | ky : KEv → Ev
  deriving DecidableEq, Repr

/-- Environments of both strategies for one task. -/
structure TaskEnv where
  cq : CqEnv
  ky : KytheEnv
  deriving Repr

/-- `ProgramModel.process_task`: runs the codequery strategy first, then
the kythe strategy only when `graphdb_enabled` is true (its outcome
otherwise stays the initial `False`), and returns the disjunction.  An
exception escaping a strategy propagates. -/
def process_task (cfg : ProgramModelCfg) (env : TaskEnv) :
    List Ev × Except PyExc Bool :=
  match process_task_codequery cfg env.cq with
  | (tc, Except.error e) => (tc.map Ev.cq, Except.error e)
  | (tc, Except.ok c) =>
    if cfg.graphdb_enabled then
      match process_task_kythe cfg env.ky with
      | (tk, Except.error e) => (tc.map Ev.cq ++ tk.map Ev.ky, Except.error e)
      | (tk, Except.ok k) => (tc.map Ev.cq ++ tk.map Ev.ky, Except.ok (c || k))
    else
      (tc.map Ev.cq, Except.ok c)

/-- An item popped from the inbound reliable queue: its queue item id and
the deserialized `IndexRequest`. -/
structure QItem where
  item_id : String
  request : IndexRequest
  deriving DecidableEq, Repr

/-- Observable queue-level actions of `serve_item`, in order: the pop, the
strategy events, the `IndexOutput` push, and the acknowledgement. -/
inductive SEv
  | pop
  | ack : String → SEv
  | push : IndexOutput → SEv
  | task : Ev → SEv
  deriving DecidableEq, Repr

/-- Whether a `serve_item` event is a push to the output queue. -/
def SEv.isPush : SEv → Bool
  | SEv.push _ => true
  | _ => false

/-- Whether a `serve_item` event is an acknowledgement of the inbound
item. -/
def SEv.isAck : SEv → Bool
  | SEv.ack _ => true
  | _ => false

/-- The `ProgramModel` state `serve_item` consults: whether `task_queue`,
`output_queue` and `registry` are initialized (not `None`), and the task
configuration. -/
structure ServeCfg where
  task_queue_init : Bool
  output_queue_init : Bool
  registry_init : Bool
  cfg : ProgramModelCfg
  deriving Repr

/-- External outcomes for one `serve_item` call: the pop result, the
registry answer to `should_stop_processing`, and the strategy
environments. -/
structure ServeEnv where
  popResult : Option QItem
  shouldStop : Bool
  task : TaskEnv
  deriving Repr

/-- The `IndexOutput` that `serve_item` constructs from the consumed
`IndexRequest`. -/
def mkIndexOutput (req : IndexRequest) : IndexOutput :=
  { build_type := req.build_type
    package_name := req.package_name
    sanitizer := req.sanitizer
    task_dir := req.task_dir
    task_id := req.task_id }

/-- `ProgramModel.serve_item`: raises `ValueError` when `task_queue` is
`None`; returns `False` on an empty pop; on a registry stop answer acks
the item and returns `True`; otherwise runs `process_task`, and on success
checks `output_queue` (raising `ValueError` when it is `None`), pushes the
`IndexOutput`, acks the item and returns `True`; on failure it neither
pushes nor acks and returns `True`. -/
def serve_item (s : ServeCfg) (env : ServeEnv) :
    List SEv × Except PyExc Bool :=
  if s.task_queue_init = false then
    ([], Except.error "ValueError: Task queue is not initialized")
  else
    match env.popResult with
    | none => ([SEv.pop], Except.ok false)
    | some item =>
      if s.registry_init && env.shouldStop then
        ([SEv.pop, SEv.ack item.item_id], Except.ok true)
      else
        match process_task s.cfg env.task with
        | (t, Except.error e) => (SEv.pop :: t.map SEv.task, Except.error e)
        | (t, Except.ok true) =>
          if s.output_queue_init = false then
            (SEv.pop :: t.map SEv.task,
             Except.error "ValueError: Output queue is not initialized")
          else
            (SEv.pop :: t.map SEv.task ++
               [SEv.push (mkIndexOutput item.request), SEv.ack item.item_id],
             Except.ok true)
        | (t, Except.ok false) => (SEv.pop :: t.map SEv.task, Except.ok true)

/-! ### Concrete inputs used by witnesses and counterexamples -/

/-- A fully initialized configuration with the graph store enabled. -/
def fullCfg : ProgramModelCfg :=
  { graphdb_enabled := true
    wdir := some "/crs"
    script_dir := some "/scripts"
    kythe_dir := some "/kythe"
    python := some "python3" }

/-- The same configuration with the graph store disabled. -/
def noGraphCfg : ProgramModelCfg :=
  { fullCfg with graphdb_enabled := false }

/-- A kythe environment in which every external step succeeds. -/
def kytheOkEnv : KytheEnv :=
  { mkTempDir := Except.ok ()
    chmodWorkspace := Except.ok ()
    mkChallengeTask := Except.ok ()
    getRwCopy := Except.ok ()
    applyPatchDiff := Except.ok true
    indexTarget := Except.ok (some "/crs/out")
    chownOutput := Except.ok ()
    mergeKytheOutput := Except.ok ()
    cxxIndex := Except.ok ()
    processStream := Except.ok ()
    loadGraphml := Except.ok () }

/-- A kythe environment in which acquiring the working copy raises. -/
def kytheRwFailEnv : KytheEnv :=
  { kytheOkEnv with getRwCopy := Except.error "OSError: failed to create rw copy" }

/-- A kythe environment in which the gremlin load raises. -/
def kytheLoadFailEnv : KytheEnv :=
  { kytheOkEnv with loadGraphml := Except.error "ConnectionError: graphdb unreachable" }

/-- A codequery environment in which every external step succeeds. -/
def cqOkEnv : CqEnv :=
  { mkChallengeTask := Except.ok ()
    getRwCopy := Except.ok ()
    applyPatchDiff := Except.ok true
    mkCodeQuery := Except.ok ()
    archive := Except.ok () }

/-- A codequery environment in which the archival step raises. -/
def cqArchiveFailEnv : CqEnv :=
  { cqOkEnv with archive := Except.error "OSError: remote archive failed" }

/-- A sample inbound request. -/
def reqA : IndexRequest :=
  { task_id := "task-1"
    package_name := "libfoo"
    build_type := "full"
    sanitizer := "address"
    task_dir := "/tasks/task-1"
    }

/-- A sample popped queue item carrying `reqA`. -/
def itemA : QItem := { item_id := "item-1", request := reqA }

/-- Serve-time state with both queues and the registry initialized, graph
store enabled. -/
def sAll : ServeCfg :=
  { task_queue_init := true
    output_queue_init := true
    registry_init := true
    cfg := fullCfg }

/-- Serve-time state whose output queue was never initialized. -/
def sNoOut : ServeCfg :=
  { sAll with output_queue_init := false }

/-- A serve environment where the popped task is cancelled. -/
def envCancelled : ServeEnv :=
  { popResult := some itemA
    shouldStop := true
    task := { cq := cqOkEnv, ky := kytheOkEnv } }

/-- A serve environment where both strategies succeed. -/
def envAllOk : ServeEnv :=
  { popResult := some itemA
    shouldStop := false
    task := { cq := cqOkEnv, ky := kytheOkEnv } }

/-- A serve environment where the codequery strategy fails at archival and
the kythe working-copy acquisition raises. -/
def envKyRaises : ServeEnv :=
  { popResult := some itemA
    shouldStop := false
    task := { cq := cqArchiveFailEnv, ky := kytheRwFailEnv } }

/-- A serve environment where both strategies fail by returning false. -/
def envBothFail : ServeEnv :=
  { popResult := some itemA
    shouldStop := false
    task := { cq := cqArchiveFailEnv, ky := kytheLoadFailEnv } }

/-! ### Claim theorems -/

/-- C1: `process_task` runs the codequery strategy first, runs the kythe
strategy exactly when `graphdb_enabled` is true, and, whenever the kythe
strategy is disabled or returns normally, returns the disjunction of the
codequery outcome with the kythe outcome (the latter taken as `false` when
disabled). -/
theorem process_task_or_semantics (cfg : ProgramModelCfg) (env : TaskEnv)
    (c k : Bool)
    (hc : (process_task_codequery cfg env.cq).2 = Except.ok c)
    (hk : cfg.graphdb_enabled = false ∨
      (process_task_kythe cfg env.ky).2 = Except.ok k) :
    (process_task cfg env).2 = Except.ok (c || (cfg.graphdb_enabled && k))
    ∧ (process_task cfg env).1 =
        (process_task_codequery cfg env.cq).1.map Ev.cq ++
          (if cfg.graphdb_enabled then
            (process_task_kythe cfg env.ky).1.map Ev.ky else []) := by
  unfold process_task
  rcases hcq : process_task_codequery cfg env.cq with ⟨tc, rc⟩
  rw [hcq] at hc
  simp only at hc
  subst hc
  rcases hk with hk | hk
  · simp [hk]
  · rcases hky : process_task_kythe cfg env.ky with ⟨tk, rk⟩
    rw [hky] at hk
    simp only at hk
    subst hk
    by_cases hg : cfg.graphdb_enabled
    · simp [hg]
    · simp [hg]

/-- C1 witness: with the graph store enabled and every external step
succeeding, `process_task` returns `true`. -/
theorem process_task_or_semantics_witness :
    (process_task fullCfg { cq := cqOkEnv, ky := kytheOkEnv }).2 =
      Except.ok (true || (fullCfg.graphdb_enabled && true)) :=
  (process_task_or_semantics fullCfg { cq := cqOkEnv, ky := kytheOkEnv }
    true true rfl (Or.inr rfl)).1

/-- Helper: the codequery strategy always returns a boolean — its whole
body is inside one `try ... except`. -/
theorem codequery_no_raise (cfg : ProgramModelCfg) (env : CqEnv) :
    ∃ b, (process_task_codequery cfg env).2 = Except.ok b := by
  unfold process_task_codequery
  repeat' split
  all_goals exact ⟨_, rfl⟩

/-- Helper: the kythe strategy always attempts the temporary-workspace
creation first. -/
theorem kythe_trace_starts (cfg : ProgramModelCfg) (env : KytheEnv) :
    ∃ t, (process_task_kythe cfg env).1 = KEv.mkTempDir :: t := by
  unfold process_task_kythe
  repeat' split
  all_goals exact ⟨_, rfl⟩

/-- C4: when the registry reports that the popped task should stop
processing, `serve_item` acknowledges the item and returns `true`, and its
trace contains no strategy event and no push. -/
theorem serve_item_cancelled_path (s : ServeCfg) (env : ServeEnv) (item : QItem)
    (hq : s.task_queue_init = true)
    (hpop : env.popResult = some item)
    (hreg : s.registry_init = true)
    (hstop : env.shouldStop = true) :
    serve_item s env = ([SEv.pop, SEv.ack item.item_id], Except.ok true)
    ∧ (∀ o, SEv.push o ∉ (serve_item s env).1)
    ∧ (∀ e, SEv.task e ∉ (serve_item s env).1) := by
  have h : serve_item s env = ([SEv.pop, SEv.ack item.item_id], Except.ok true) := by
    simp [serve_item, hq, hpop, hreg, hstop]
  refine ⟨h, ?_, ?_⟩ <;> intro x <;> rw [h] <;> simp

/-- C4 witness: concrete cancelled item. -/
theorem serve_item_cancelled_path_witness :
    serve_item sAll envCancelled = ([SEv.pop, SEv.ack itemA.item_id], Except.ok true) :=
  (serve_item_cancelled_path sAll envCancelled itemA rfl rfl rfl rfl).1

/-- C5: when `process_task` returns `false` (both strategies failed),
`serve_item` pushes nothing, acknowledges nothing, and returns `true`
without raising. -/
theorem serve_item_failure_path (s : ServeCfg) (env : ServeEnv) (item : QItem)
    (hq : s.task_queue_init = true)
    (hpop : env.popResult = some item)
    (hns : (s.registry_init && env.shouldStop) = false)
    (hfail : (process_task s.cfg env.task).2 = Except.ok false) :
    (serve_item s env).2 = Except.ok true
    ∧ (∀ o, SEv.push o ∉ (serve_item s env).1)
    ∧ (∀ i, SEv.ack i ∉ (serve_item s env).1) := by
  rcases hpt : process_task s.cfg env.task with ⟨t, r⟩
  rw [hpt] at hfail
  simp only at hfail
  subst hfail
  have h : serve_item s env = (SEv.pop :: t.map SEv.task, Except.ok true) := by
    simp [serve_item, hq, hpop, hns, hpt]
  refine ⟨by rw [h], ?_, ?_⟩ <;> intro x <;> rw [h] <;> simp

/-- C5 witness: both strategies fail on a concrete item; the result says
work was done, with no push and no ack. -/
theorem serve_item_failure_path_witness :
    (serve_item sAll envBothFail).2 = Except.ok true :=
  (serve_item_failure_path sAll envBothFail itemA rfl rfl rfl rfl).1

/-- C9: `process_task` is eager — whenever `graphdb_enabled` is true, the
kythe strategy is run (its first step, the temporary-workspace creation,
appears in the trace) regardless of the codequery outcome, and the whole
trace is the codequery trace followed by the full kythe trace. -/
theorem process_task_eager (cfg : ProgramModelCfg) (env : TaskEnv)
    (hg : cfg.graphdb_enabled = true) :
    (process_task cfg env).1 =
      (process_task_codequery cfg env.cq).1.map Ev.cq ++
        (process_task_kythe cfg env.ky).1.map Ev.ky
    ∧ Ev.ky KEv.mkTempDir ∈ (process_task cfg env).1 := by
  obtain ⟨c, hc⟩ := codequery_no_raise cfg env.cq
  rcases hcq : process_task_codequery cfg env.cq with ⟨tc, rc⟩
  rw [hcq] at hc
  simp only at hc
  subst hc
  obtain ⟨t0, ht0⟩ := kythe_trace_starts cfg env.ky
  rcases hky : process_task_kythe cfg env.ky with ⟨tk, rk⟩
  rw [hky] at ht0
  simp only at ht0
  subst ht0
  have h1 : (process_task cfg env).1 = tc.map Ev.cq ++ (KEv.mkTempDir :: t0).map Ev.ky := by
    unfold process_task
    rw [hcq, hky]
    cases rk <;> simp [hg]
  constructor
  · rw [h1]
  · rw [h1]
    simp

/-- C9 witness: with the graph store enabled and the codequery strategy
succeeding, the kythe workspace creation still appears in the trace. -/
theorem process_task_eager_witness :
    Ev.ky KEv.mkTempDir ∈ (process_task fullCfg envAllOk.task).1 :=
  (process_task_eager fullCfg envAllOk.task rfl).2

/-- C10: the `output_queue is None` check sits on the success path only —
with an uninitialized output queue, a successful `process_task` makes
`serve_item` raise `ValueError` after the whole task trace, with no push
and no ack; the cancelled and failed paths never detect the missing
output queue. -/
theorem output_queue_check_on_success_only (s : ServeCfg) (env : ServeEnv) (item : QItem)
    (hq : s.task_queue_init = true)
    (hpop : env.popResult = some item)
    (hoq : s.output_queue_init = false) :
    ((s.registry_init && env.shouldStop) = false →
      (process_task s.cfg env.task).2 = Except.ok true →
      serve_item s env =
        (SEv.pop :: (process_task s.cfg env.task).1.map SEv.task,
         Except.error "ValueError: Output queue is not initialized"))
    ∧ ((s.registry_init && env.shouldStop) = true →
      serve_item s env = ([SEv.pop, SEv.ack item.item_id], Except.ok true))
    ∧ ((s.registry_init && env.shouldStop) = false →
      (process_task s.cfg env.task).2 = Except.ok false →
      serve_item s env =
        (SEv.pop :: (process_task s.cfg env.task).1.map SEv.task, Except.ok true)) := by
  refine ⟨?_, ?_, ?_⟩
  · intro hns hsucc
    rcases hpt : process_task s.cfg env.task with ⟨t, r⟩
    rw [hpt] at hsucc
    simp only at hsucc
    subst hsucc
    simp [serve_item, hq, hpop, hns, hpt, hoq]
  · intro hstop
    simp [serve_item, hq, hpop, hstop]
  · intro hns hfail
    rcases hpt : process_task s.cfg env.task with ⟨t, r⟩
    rw [hpt] at hfail
    simp only at hfail
    subst hfail
    simp [serve_item, hq, hpop, hns, hpt]

/-- C10 witness: concrete successful task with the output queue missing —
`serve_item` raises the `ValueError` after the full task trace. -/
theorem output_queue_check_on_success_only_witness :
    serve_item sNoOut envAllOk =
      (SEv.pop :: (process_task sNoOut.cfg envAllOk.task).1.map SEv.task,
       Except.error "ValueError: Output queue is not initialized") :=
  (output_queue_check_on_success_only sNoOut envAllOk itemA rfl rfl rfl).1 rfl rfl

/-- A kythe environment in which the kzip merge raises. -/
def kytheMergeFailEnv : KytheEnv :=
  { kytheOkEnv with mergeKytheOutput := Except.error "ZipError: merge failed" }

/-- Serve-time state whose task queue was never initialized. -/
def sNoTq : ServeCfg :=
  { sAll with task_queue_init := false }

/-- Helper: strategy events contribute no push to a `serve_item` trace. -/
theorem task_map_filter_push (t : List Ev) :
    (t.map SEv.task).filter SEv.isPush = [] := by
  induction t with
  | nil => rfl
  | cons a t ih => simp [SEv.isPush, ih]

/-- C6: once the kythe strategy reaches the conversion pipeline, a failing
stage blocks every later stage and yields a `false` strategy outcome: a
merge exception means the binary index, the graphml write and the gremlin
load are never attempted; a binary-index exception blocks the graphml
write and the load; a graphml exception blocks the load; and in each case
(including a load exception) `process_task_kythe` returns `Except.ok
false`. -/
theorem kythe_pipeline_short_circuit (cfg : ProgramModelCfg) (env : KytheEnv)
    (d sd pv kd : String) (b5 : Bool)
    (h1 : env.mkTempDir = Except.ok ())
    (h2 : env.chmodWorkspace = Except.ok ())
    (h3 : env.mkChallengeTask = Except.ok ())
    (h4 : env.getRwCopy = Except.ok ())
    (h5 : env.applyPatchDiff = Except.ok b5)
    (hs : cfg.script_dir = some sd)
    (hp : cfg.python = some pv)
    (hk : cfg.kythe_dir = some kd)
    (h6 : env.indexTarget = Except.ok (some d))
    (h7 : env.chownOutput = Except.ok ()) :
    (∀ e, env.mergeKytheOutput = Except.error e →
      KEv.cxxIndex ∉ (process_task_kythe cfg env).1
      ∧ KEv.processStream ∉ (process_task_kythe cfg env).1
      ∧ KEv.loadGraphml ∉ (process_task_kythe cfg env).1
      ∧ (process_task_kythe cfg env).2 = Except.ok false)
    ∧ (∀ e, env.mergeKytheOutput = Except.ok () → env.cxxIndex = Except.error e →
      KEv.processStream ∉ (process_task_kythe cfg env).1
      ∧ KEv.loadGraphml ∉ (process_task_kythe cfg env).1
      ∧ (process_task_kythe cfg env).2 = Except.ok false)
    ∧ (∀ e, env.mergeKytheOutput = Except.ok () → env.cxxIndex = Except.ok () →
        env.processStream = Except.error e →
      KEv.loadGraphml ∉ (process_task_kythe cfg env).1
      ∧ (process_task_kythe cfg env).2 = Except.ok false)
    ∧ (∀ e, env.mergeKytheOutput = Except.ok () → env.cxxIndex = Except.ok () →
        env.processStream = Except.ok () → env.loadGraphml = Except.error e →
      (process_task_kythe cfg env).2 = Except.ok false) := by
  refine ⟨?_, ?_, ?_, ?_⟩
  · intro e hm
    simp [process_task_kythe, index_kythe, h1, h2, h3, h4, h5, h6, h7, hs, hp, hk, hm]
  · intro e hm hx
    simp [process_task_kythe, index_kythe, h1, h2, h3, h4, h5, h6, h7, hs, hp, hk, hm, hx]
  · intro e hm hx hps
    simp [process_task_kythe, index_kythe, h1, h2, h3, h4, h5, h6, h7, hs, hp, hk, hm,
      hx, hps]
  · intro e hm hx hps hl
    simp [process_task_kythe, index_kythe, h1, h2, h3, h4, h5, h6, h7, hs, hp, hk, hm,
      hx, hps, hl]

/-- C6 witness: a concrete merge failure stops the pipeline and the
strategy reports `false`. -/
theorem kythe_pipeline_short_circuit_witness :
    KEv.cxxIndex ∉ (process_task_kythe fullCfg kytheMergeFailEnv).1
    ∧ KEv.processStream ∉ (process_task_kythe fullCfg kytheMergeFailEnv).1
    ∧ KEv.loadGraphml ∉ (process_task_kythe fullCfg kytheMergeFailEnv).1
    ∧ (process_task_kythe fullCfg kytheMergeFailEnv).2 = Except.ok false :=
  (kythe_pipeline_short_circuit fullCfg kytheMergeFailEnv "/crs/out" "/scripts"
    "python3" "/kythe" true rfl rfl rfl rfl rfl rfl rfl rfl rfl rfl).1
    "ZipError: merge failed" rfl

/-- C7: on the success path exactly one `IndexOutput` is pushed and its
five fields are copied from the consumed `IndexRequest`; the cancelled and
failed paths push nothing. -/
theorem serve_item_output_fields (s : ServeCfg) (env : ServeEnv) (item : QItem)
    (hq : s.task_queue_init = true)
    (hpop : env.popResult = some item)
    (hoq : s.output_queue_init = true) :
    ((s.registry_init && env.shouldStop) = false →
      (process_task s.cfg env.task).2 = Except.ok true →
      (serve_item s env).1.filter SEv.isPush =
        [SEv.push { build_type := item.request.build_type
                    package_name := item.request.package_name
                    sanitizer := item.request.sanitizer
                    task_dir := item.request.task_dir
                    task_id := item.request.task_id }])
    ∧ ((s.registry_init && env.shouldStop) = true →
      (serve_item s env).1.filter SEv.isPush = [])
    ∧ ((s.registry_init && env.shouldStop) = false →
      (process_task s.cfg env.task).2 = Except.ok false →
      (serve_item s env).1.filter SEv.isPush = []) := by
  refine ⟨?_, ?_, ?_⟩
  · intro hns hsucc
    rcases hpt : process_task s.cfg env.task with ⟨t, r⟩
    rw [hpt] at hsucc
    simp only at hsucc
    subst hsucc
    have h : serve_item s env =
        (SEv.pop :: t.map SEv.task ++
          [SEv.push (mkIndexOutput item.request), SEv.ack item.item_id],
         Except.ok true) := by
      simp [serve_item, hq, hpop, hns, hpt, hoq]
    rw [h]
    simp [List.filter_append, task_map_filter_push, SEv.isPush, mkIndexOutput]
  · intro hstop
    have h : serve_item s env = ([SEv.pop, SEv.ack item.item_id], Except.ok true) := by
      simp [serve_item, hq, hpop, hstop]
    rw [h]
    simp [SEv.isPush]
  · intro hns hfail
    rcases hpt : process_task s.cfg env.task with ⟨t, r⟩
    rw [hpt] at hfail
    simp only at hfail
    subst hfail
    have h : serve_item s env = (SEv.pop :: t.map SEv.task, Except.ok true) := by
      simp [serve_item, hq, hpop, hns, hpt]
    rw [h]
    simp [task_map_filter_push, SEv.isPush]

/-- C7 witness: the concrete successful run pushes exactly the
`IndexOutput` mirroring `reqA`. -/
theorem serve_item_output_fields_witness :
    (serve_item sAll envAllOk).1.filter SEv.isPush =
      [SEv.push { build_type := itemA.request.build_type
                  package_name := itemA.request.package_name
                  sanitizer := itemA.request.sanitizer
                  task_dir := itemA.request.task_dir
                  task_id := itemA.request.task_id }] :=
  (serve_item_output_fields sAll envAllOk itemA rfl rfl rfl).1 rfl rfl

/-- C2 counterexample: for the cancelled item the inbound item is
acknowledged but no `IndexOutput` is published, so published-iff-
acknowledged is false on this consumed item. -/
theorem serve_item_publish_iff_ack_cex :
    (∃ i, SEv.ack i ∈ (serve_item sAll envCancelled).1)
    ∧ ¬ (∃ o, SEv.push o ∈ (serve_item sAll envCancelled).1) := by
  have h : serve_item sAll envCancelled =
      ([SEv.pop, SEv.ack "item-1"], Except.ok true) := rfl
  constructor
  · exact ⟨"item-1", by rw [h]; simp⟩
  · rintro ⟨o, ho⟩
    rw [h] at ho
    simp at ho

/-- C2 amended: a published `IndexOutput` is always immediately followed
by the acknowledgement (publish-then-acknowledge, never the reverse), and
an acknowledgement without a publish happens only on the cancelled path,
where the trace is exactly pop-then-ack. -/
theorem serve_item_publish_before_ack (s : ServeCfg) (env : ServeEnv) :
    (∀ o : IndexOutput, SEv.push o ∈ (serve_item s env).1 →
      ∃ pre i, (serve_item s env).1 = pre ++ [SEv.push o, SEv.ack i])
    ∧ (∀ i : String, SEv.ack i ∈ (serve_item s env).1 →
      (∃ o, SEv.push o ∈ (serve_item s env).1) ∨
        (s.registry_init = true ∧ env.shouldStop = true ∧
          (serve_item s env).1 = [SEv.pop, SEv.ack i])) := by
  by_cases htq : s.task_queue_init = false
  · constructor <;> intro x hx <;> simp [serve_item, htq] at hx
  · rcases hpop : env.popResult with _ | item
    · constructor <;> intro x hx <;> simp [serve_item, htq, hpop] at hx
    · by_cases hreg : (s.registry_init && env.shouldStop) = true
      · have h : serve_item s env =
            ([SEv.pop, SEv.ack item.item_id], Except.ok true) := by
          simp [serve_item, htq, hpop, hreg]
        rw [Bool.and_eq_true] at hreg
        constructor
        · intro o ho
          rw [h] at ho
          simp at ho
        · intro i hi
          rw [h] at hi
          simp at hi
          refine Or.inr ⟨hreg.1, hreg.2, ?_⟩
          rw [h, hi]
      · have hreg2 : (s.registry_init && env.shouldStop) = false := by
          simpa using hreg
        rcases hpt : process_task s.cfg env.task with ⟨t, r⟩
        match r with
        | Except.error e =>
          have h : serve_item s env =
              (SEv.pop :: t.map SEv.task, Except.error e) := by
            simp [serve_item, htq, hpop, hreg2, hpt]
          constructor <;> intro x hx <;> rw [h] at hx <;> simp at hx
        | Except.ok false =>
          have h : serve_item s env =
              (SEv.pop :: t.map SEv.task, Except.ok true) := by
            simp [serve_item, htq, hpop, hreg2, hpt]
          constructor <;> intro x hx <;> rw [h] at hx <;> simp at hx
        | Except.ok true =>
          by_cases hoq : s.output_queue_init = false
          · have h : serve_item s env =
                (SEv.pop :: t.map SEv.task,
                 Except.error "ValueError: Output queue is not initialized") := by
              simp [serve_item, htq, hpop, hreg2, hpt, hoq]
            constructor <;> intro x hx <;> rw [h] at hx <;> simp at hx
          · have h : serve_item s env =
                (SEv.pop :: t.map SEv.task ++
                  [SEv.push (mkIndexOutput item.request), SEv.ack item.item_id],
                 Except.ok true) := by
              simp [serve_item, htq, hpop, hreg2, hpt, hoq]
            constructor
            · intro o ho
              rw [h] at ho
              simp at ho
              refine ⟨SEv.pop :: t.map SEv.task, item.item_id, ?_⟩
              rw [h, ho]
            · intro i hi
              exact Or.inl ⟨mkIndexOutput item.request, by rw [h]; simp⟩

/-- C2 amended witness: on the concrete successful run the push is
immediately followed by the ack. -/
theorem serve_item_publish_before_ack_witness :
    ∃ pre i, (serve_item sAll envAllOk).1 =
      pre ++ [SEv.push (mkIndexOutput itemA.request), SEv.ack i] :=
  (serve_item_publish_before_ack sAll envAllOk).1 (mkIndexOutput itemA.request)
    (by decide)

/-- C3 counterexample: an exception in the working-copy acquisition of the
kythe strategy is not caught — `process_task_kythe` propagates it instead
of returning `false`. -/
theorem kythe_exception_escape_cex :
    (process_task_kythe fullCfg kytheRwFailEnv).2 =
      Except.error "OSError: failed to create rw copy" := rfl

/-- Helper: `index_kythe` returns normally exactly when the kythe
directory is configured and both the merge and the binary-index steps
return normally; its trace is then both pipeline events in order. -/
theorem index_kythe_eq_ok (cfg : ProgramModelCfg) (env : KytheEnv)
    (t : List KEv) (u : Unit) :
    index_kythe cfg env = (t, Except.ok u) ↔
      ((∃ k, cfg.kythe_dir = some k) ∧ env.mergeKytheOutput = Except.ok ()
        ∧ env.cxxIndex = Except.ok ()
        ∧ t = [KEv.mergeKytheOutput, KEv.cxxIndex]) := by
  unfold index_kythe
  repeat' split
  all_goals simp_all [eq_comm]

/-- C3 amended: `process_task_codequery` catches every exception and
always returns a boolean, `true` only when no step raised, the work
directory was set, and construction and archival completed; for
`process_task_kythe` only the steps from the configuration checks onward
(indexer invocation, ownership fix-up, merge, binary index, graphml
write, graph-store load) have their exceptions converted into a `false`
return — when the workspace creation, permission change, working-copy
acquisition and patch application return normally, the strategy returns a
boolean, `true` only when every remaining step also completed — while an
exception in one of those four early steps propagates (witnessed by the
counterexample). -/
theorem strategy_exception_containment (cfg : ProgramModelCfg)
    (kenv : KytheEnv) (cenv : CqEnv) (b5 : Bool)
    (h1 : kenv.mkTempDir = Except.ok ())
    (h2 : kenv.chmodWorkspace = Except.ok ())
    (h3 : kenv.mkChallengeTask = Except.ok ())
    (h4 : kenv.getRwCopy = Except.ok ())
    (h5 : kenv.applyPatchDiff = Except.ok b5) :
    (∃ b, (process_task_codequery cfg cenv).2 = Except.ok b)
    ∧ (∃ b, (process_task_kythe cfg kenv).2 = Except.ok b)
    ∧ ((process_task_codequery cfg cenv).2 = Except.ok true →
        (∀ e, cenv.mkChallengeTask ≠ Except.error e)
        ∧ (∀ e, cenv.getRwCopy ≠ Except.error e)
        ∧ (∀ e, cenv.applyPatchDiff ≠ Except.error e)
        ∧ cfg.wdir ≠ none
        ∧ (∀ e, cenv.mkCodeQuery ≠ Except.error e)
        ∧ (∀ e, cenv.archive ≠ Except.error e))
    ∧ ((process_task_kythe cfg kenv).2 = Except.ok true →
        (∃ d, kenv.indexTarget = Except.ok (some d))
        ∧ (∀ e, kenv.chownOutput ≠ Except.error e)
        ∧ (∀ e, kenv.mergeKytheOutput ≠ Except.error e)
        ∧ (∀ e, kenv.cxxIndex ≠ Except.error e)
        ∧ (∀ e, kenv.processStream ≠ Except.error e)
        ∧ (∀ e, kenv.loadGraphml ≠ Except.error e)) := by
  refine ⟨codequery_no_raise cfg cenv, ?_, ?_, ?_⟩
  · unfold process_task_kythe index_kythe
    repeat' split
    all_goals first | exact ⟨_, rfl⟩ | simp_all
  · intro h
    unfold process_task_codequery at h
    repeat' split at h
    all_goals simp_all
  · intro h
    unfold process_task_kythe at h
    repeat' split at h
    all_goals simp_all [index_kythe_eq_ok]

/-- C3 amended witness: with the early steps succeeding and a failing
graph-store load, the kythe strategy returns a boolean. -/
theorem strategy_exception_containment_witness :
    ∃ b, (process_task_kythe fullCfg kytheLoadFailEnv).2 = Except.ok b :=
  (strategy_exception_containment fullCfg kytheLoadFailEnv cqOkEnv true
    rfl rfl rfl rfl rfl).2.1

/-- C8 counterexample: with both queues initialized, `serve_item` still
raises — the exception escaping the kythe working-copy acquisition
propagates through `process_task` and `serve_item`, a per-task condition,
not a missing queue. -/
theorem serve_item_raise_cex :
    (serve_item sAll envKyRaises).2 =
      Except.error "OSError: failed to create rw copy"
    ∧ sAll.task_queue_init = true ∧ sAll.output_queue_init = true :=
  ⟨rfl, rfl, rfl⟩

/-- C8 amended: the `ValueError`s `serve_item` raises itself require an
uninitialized queue, but any exception escaping `process_task` (possible
through the unguarded early steps of the kythe strategy) also propagates:
every exceptional outcome of `serve_item` comes from an uninitialized
task queue, an uninitialized output queue, or an exceptional
`process_task`. -/
theorem serve_item_raise_sources (s : ServeCfg) (env : ServeEnv) (e : PyExc)
    (h : (serve_item s env).2 = Except.error e) :
    s.task_queue_init = false ∨ s.output_queue_init = false ∨
      (process_task s.cfg env.task).2 = Except.error e := by
  unfold serve_item at h
  repeat' split at h
  all_goals simp_all

/-- C8 amended witness: an uninitialized task queue makes `serve_item`
raise and the disjunction holds. -/
theorem serve_item_raise_sources_witness :
    sNoTq.task_queue_init = false ∨ sNoTq.output_queue_init = false ∨
      (process_task sNoTq.cfg envAllOk.task).2 =
        Except.error "ValueError: Task queue is not initialized" :=
  serve_item_raise_sources sNoTq envAllOk
    "ValueError: Task queue is not initialized" rfl
